import Mathlib

/-!
Shallow embedding of `src/core/search/search.py`: the hybrid-search orchestrator of a
temporal knowledge graph. The embedding models the configuration and result types, the
orchestrator `hybrid_search` as a pure function of the configuration and of pure
collaborator oracles, and an explicit trace of the collaborator invocations the
orchestrator issues, in issue order (the source awaits each call before the next one
starts, so the trace is totally ordered).
-/

/-- An episodic node; the core passes these through verbatim, so only the identifier
is kept. -/
structure EpisodicNode where
  uuid : String
  deriving DecidableEq, Repr

/-- An entity node; passed through verbatim by the core. -/
structure EntityNode where
  uuid : String
  deriving DecidableEq, Repr

/-- An entity edge: the core inspects only its `uuid` (for fusion) and its `fact`
(for logging). -/
structure EntityEdge where
  uuid : String
  fact : String
  deriving DecidableEq, Repr

/-- Modelled from the spec: `EPISODE_WINDOW_LEN`, imported by the source from
`core.utils.maintenance.graph_data_operations`, which is not under `src/`. The spec
only says the episode window is a non-negative integer and positive by default; no
claim depends on the value, we fix 3. -/
def EPISODE_WINDOW_LEN : Int := 3

/-- Modelled from the spec: `EMBEDDING_DIM`, the fixed expected embedding dimension
the source imports from `core.llm_client.config`, which is not under `src/`. The spec
fixes no numeric value and no claim depends on it; we fix 1024. -/
def EMBEDDING_DIM : Nat := 1024

/-- `SearchConfig` from the source, with the same defaults. The strategy fields are
free-form strings in the source (pydantic `str` fields), kept as strings here. -/
structure SearchConfig where
  num_results : Int := 10
  num_episodes : Int := EPISODE_WINDOW_LEN
  similarity_search : String := "cosine"
  text_search : String := "BM25"
  reranker : String := "rrf"
  deriving DecidableEq, Repr

/-- `SearchResults` from the source: the returned bundle. -/
structure SearchResults where
  episodes : List EpisodicNode
  nodes : List EntityNode
  edges : List EntityEdge
  deriving DecidableEq, Repr

/-- Failures of `hybrid_search`: `exception` models the `raise Exception(msg)` in the
source, `keyError` models the `KeyError` Python would raise from the dictionary
subscript `edge_uuid_map[uuid]` on a missing key. -/
inductive SearchError where
  | exception (msg : String)
  | keyError
  deriving DecidableEq, Repr

/-- The collaborator calls `hybrid_search` can issue, each carrying the argument it was
issued with. Vector entries are opaque to the core (only sliced, never inspected), so
they are modelled as integers. -/
inductive SearchEvent where
  | retrieveEpisodes (timestamp : Int)
  | getMentionedNodes (episodes : List EpisodicNode)
  | edgeFulltextSearch (query : String)
  | embedderCreate (input : String)
  | edgeSimilaritySearch (vector : List Int)
  deriving DecidableEq, Repr

/-- Whether an event belongs to the episode/mention retrieval branch. -/
def SearchEvent.isEpisodic : SearchEvent → Bool
  | .retrieveEpisodes _ => true
  | .getMentionedNodes _ => true
  | _ => false

/-- The external collaborators the orchestrator consumes, as pure oracles. The graph
driver and the embedding model name are fixed inside each oracle (the core passes them
through unchanged). `embedder_create` models
`(await embedder.create(input=[text], model=...)).data[0].embedding`. -/
structure Collaborators where
  retrieve_episodes : Int → List EpisodicNode
  get_mentioned_nodes : List EpisodicNode → List EntityNode
  edge_fulltext_search : String → List EntityEdge
  embedder_create : String → List Int
  edge_similarity_search : List Int → List EntityEdge

/-- The query-text normalization in the source, `query.replace('\n', ' ')`: every
newline character is replaced by a single space. -/
def normalizeQuery (q : String) : String :=
  String.mk (q.data.map (fun c => if c = '\n' then ' ' else c))

/-- The vector handed to vector edge search: the embedder output for the normalized
query, sliced by `[:EMBEDDING_DIM]` (Python slicing keeps a shorter list unchanged). -/
def search_vector (C : Collaborators) (query : String) : List Int :=
  (C.embedder_create (normalizeQuery query)).take EMBEDDING_DIM

/-- The `search_results` local of the source: one ranked edge list per strategy that
ran, text search first, in source order. -/
def search_results (C : Collaborators) (query : String) (config : SearchConfig) :
    List (List EntityEdge) :=
  (if config.text_search = "BM25" then [C.edge_fulltext_search query] else []) ++
    (if config.similarity_search = "cosine" then
      [C.edge_similarity_search (search_vector C query)] else [])

/-- Modelled from the spec: the Rank Fusion Engine constant `k` (standard value 60);
`rrf` itself lives in `core.search.search_utils`, which is not under `src/`. -/
def rrfK : Nat := 60

/-- Modelled from the spec: the fused RRF score of identifier `x`, the exact sum of
`1 / (k + rank)` over the lists containing `x` (one-based rank; a list not containing
`x` contributes 0), represented as an exact unreduced fraction (numerator,
denominator) over ℕ so the sum stays exact. -/
def rrfScore (lists : List (List String)) (x : String) : Nat × Nat :=
  lists.foldl
    (fun s l =>
      match l.findIdx? (fun y => y = x) with
      | some i => (s.1 * (rrfK + i + 1) + s.2, s.2 * (rrfK + i + 1))
      | none => s)
    (0, 1)

/-- Comparison of exact fractions with positive denominators by cross-multiplication:
`a.1 / a.2 ≤ b.1 / b.2`. -/
def fracLe (a b : Nat × Nat) : Prop :=
  a.1 * b.2 ≤ b.1 * a.2

instance : DecidableRel fracLe := fun a b => Nat.decLe (a.1 * b.2) (b.1 * a.2)

/-- Modelled from the spec: `rrf` from `core.search.search_utils` (not under `src/`):
the distinct identifiers of all input lists (first-seen order), sorted by descending
fused score with a deterministic tie-break (insertion sort is stable, so ties keep
first-seen order). -/
def rrf (lists : List (List String)) : List String :=
  (lists.flatten).dedup.insertionSort
    (fun a b => fracLe (rrfScore lists b) (rrfScore lists a))

/-- One step of the dictionary build `edge_uuid_map[edge.uuid] = edge`: a later
assignment shadows an earlier one for lookup. -/
def buildUuidMap (results : List (List EntityEdge)) : List (String × EntityEdge) :=
  results.foldl (fun m result => result.foldl (fun m e => (e.uuid, e) :: m) m) []

/-- Dictionary lookup: the most recent binding of the key (the head-most one). -/
def lookupUuid : List (String × EntityEdge) → String → Option EntityEdge
  | [], _ => none
  | (k, v) :: m, u => if k = u then some v else lookupUuid m u

/-- The list comprehension `[edge_uuid_map[uuid] for uuid in reranked_uuids]`: resolves
every identifier, or fails (Python `KeyError`) if any is missing. -/
def lookupAll (m : List (String × EntityEdge)) : List String → Option (List EntityEdge)
  | [] => some []
  | u :: us =>
    match lookupUuid m u with
    | some e =>
      match lookupAll m us with
      | some es => some (e :: es)
      | none => none
    | none => none

/-- The `edges` computation of the source: single-strategy passthrough, the
multiple-strategies-without-reranker exception, the RRF fusion branch (which builds the
identifier-to-record map, fuses the per-strategy identifier lists and resolves each
fused identifier), and the fall-through that leaves `edges` empty. -/
def edgesResult (C : Collaborators) (query : String) (config : SearchConfig) :
    Except SearchError (List EntityEdge) :=
  let sr := search_results C query config
  if sr.length = 1 then
    Except.ok (sr.headD [])
  else if 1 < sr.length ∧ config.reranker ≠ "rrf" then
    Except.error (SearchError.exception "Multiple searches enabled without a reranker")
  else if config.reranker = "rrf" then
    match lookupAll (buildUuidMap sr) (rrf (sr.map (List.map EntityEdge.uuid))) with
    | some reranked_edges => Except.ok reranked_edges
    | none => Except.error SearchError.keyError
  else
    Except.ok []

/-- The `episodes` local of the source: filled only when the episode window is
positive. -/
def episodesOf (C : Collaborators) (timestamp : Int) (config : SearchConfig) :
    List EpisodicNode :=
  if 0 < config.num_episodes then C.retrieve_episodes timestamp else []

/-- The `nodes` local of the source: mentions of the retrieved episodes, only when the
episode window is positive. -/
def nodesOf (C : Collaborators) (timestamp : Int) (config : SearchConfig) :
    List EntityNode :=
  if 0 < config.num_episodes then
    C.get_mentioned_nodes (C.retrieve_episodes timestamp)
  else []

/-- The trace of collaborator invocations `hybrid_search` issues, in issue order: the
source awaits each call before the next starts, so episode retrieval, then mention
extraction, then full-text search, then embedding generation, then vector search, each
only when its branch is active. -/
def searchTrace (C : Collaborators) (query : String) (timestamp : Int)
    (config : SearchConfig) : List SearchEvent :=
  (if 0 < config.num_episodes then
    [SearchEvent.retrieveEpisodes timestamp,
      SearchEvent.getMentionedNodes (C.retrieve_episodes timestamp)]
  else []) ++
    (if config.text_search = "BM25" then [SearchEvent.edgeFulltextSearch query]
    else []) ++
    (if config.similarity_search = "cosine" then
      [SearchEvent.embedderCreate (normalizeQuery query),
        SearchEvent.edgeSimilaritySearch (search_vector C query)]
    else [])

/-- `hybrid_search` from the source: returns the assembled `SearchResults` bundle or
the raised error, paired with the trace of collaborator calls issued during the
invocation (issued before the error in the error case). -/
def hybrid_search (C : Collaborators) (query : String) (timestamp : Int)
    (config : SearchConfig) : Except SearchError SearchResults × List SearchEvent :=
  (match edgesResult C query config with
    | Except.ok edges =>
      Except.ok
        { episodes := episodesOf C timestamp config
          nodes := nodesOf C timestamp config
          edges := edges }
    | Except.error e => Except.error e,
    searchTrace C query timestamp config)

/-! Helper lemmas about the fusion machinery. -/

lemma rrf_perm (lists : List (List String)) :
    List.Perm (rrf lists) lists.flatten.dedup :=
  List.perm_insertionSort _ _

lemma mem_rrf {lists : List (List String)} {x : String} :
    x ∈ rrf lists ↔ x ∈ lists.flatten := by
  rw [(rrf_perm lists).mem_iff, List.mem_dedup]

lemma rrf_nodup (lists : List (List String)) : (rrf lists).Nodup :=
  (rrf_perm lists).symm.nodup (List.nodup_dedup _)

lemma rrf_nil : rrf [] = [] := rfl

lemma mem_foldl_insert {result : List EntityEdge} :
    ∀ (m : List (String × EntityEdge)) (p : String × EntityEdge),
      p ∈ result.foldl (fun m e => (e.uuid, e) :: m) m ↔
        p ∈ m ∨ ∃ e ∈ result, p = (e.uuid, e) := by
  induction result with
  | nil => simp
  | cons a result ih =>
    intro m p
    simp only [List.foldl_cons, ih, List.mem_cons, List.mem_cons]
    constructor
    · rintro (⟨h | h⟩ | ⟨e, he, hp⟩)
      · exact Or.inr ⟨a, Or.inl rfl, h⟩
      · exact Or.inl h
      · exact Or.inr ⟨e, Or.inr he, hp⟩
    · rintro (h | ⟨e, he | he, hp⟩)
      · exact Or.inl (Or.inr h)
      · exact Or.inl (Or.inl (he ▸ hp))
      · exact Or.inr ⟨e, he, hp⟩

lemma mem_buildUuidMap {results : List (List EntityEdge)} {p : String × EntityEdge} :
    p ∈ buildUuidMap results ↔ ∃ e ∈ results.flatten, p = (e.uuid, e) := by
  suffices h : ∀ (m : List (String × EntityEdge)),
      p ∈ results.foldl (fun m result => result.foldl (fun m e => (e.uuid, e) :: m) m) m ↔
        p ∈ m ∨ ∃ e ∈ results.flatten, p = (e.uuid, e) by
    simpa [buildUuidMap] using h []
  induction results with
  | nil => simp
  | cons r results ih =>
    intro m
    simp only [List.foldl_cons, ih, mem_foldl_insert, List.flatten_cons, List.mem_append]
    constructor
    · rintro (⟨h | ⟨e, he, hp⟩⟩ | ⟨e, he, hp⟩)
      · exact Or.inl h
      · exact Or.inr ⟨e, Or.inl he, hp⟩
      · exact Or.inr ⟨e, Or.inr he, hp⟩
    · rintro (h | ⟨e, he | he, hp⟩)
      · exact Or.inl (Or.inl h)
      · exact Or.inl (Or.inr ⟨e, he, hp⟩)
      · exact Or.inr ⟨e, he, hp⟩

lemma lookupUuid_mem {m : List (String × EntityEdge)} {u : String} {v : EntityEdge}
    (h : lookupUuid m u = some v) : (u, v) ∈ m := by
  induction m with
  | nil => simp [lookupUuid] at h
  | cons p m ih =>
    obtain ⟨k, w⟩ := p
    simp only [lookupUuid] at h
    split at h
    · obtain rfl := Option.some.inj h
      rename_i hk
      exact List.mem_cons.2 (Or.inl (by rw [hk]))
    · exact List.mem_cons_of_mem _ (ih h)

lemma lookupUuid_isSome_of_mem {m : List (String × EntityEdge)} {u : String}
    (h : ∃ v, (u, v) ∈ m) : ∃ v, lookupUuid m u = some v := by
  induction m with
  | nil => simp at h
  | cons p m ih =>
    obtain ⟨k, w⟩ := p
    by_cases hk : k = u
    · exact ⟨w, by simp [lookupUuid, hk]⟩
    · obtain ⟨v, hv⟩ := h
      rcases List.mem_cons.1 hv with hv | hv
      · exact absurd (congrArg Prod.fst hv).symm hk
      · obtain ⟨v', hv'⟩ := ih ⟨v, hv⟩
        exact ⟨v', by simpa [lookupUuid, hk] using hv'⟩

lemma lookupUuid_buildUuidMap {results : List (List EntityEdge)} {u : String}
    (hu : u ∈ (results.flatten).map EntityEdge.uuid) :
    ∃ e, lookupUuid (buildUuidMap results) u = some e ∧ e.uuid = u := by
  obtain ⟨e, he, rfl⟩ := List.mem_map.1 hu
  obtain ⟨v, hv⟩ := lookupUuid_isSome_of_mem
    ⟨e, mem_buildUuidMap.2 ⟨e, he, rfl⟩⟩
  obtain ⟨e', -, he'⟩ := mem_buildUuidMap.1 (lookupUuid_mem hv)
  obtain ⟨h1, h2⟩ := Prod.mk.injEq .. ▸ he'
  exact ⟨v, hv, by rw [h2, ← h1]⟩

lemma lookupAll_spec {m : List (String × EntityEdge)} :
    ∀ {us : List String}, (∀ u ∈ us, ∃ e, lookupUuid m u = some e ∧ e.uuid = u) →
      ∃ es, lookupAll m us = some es ∧ es.map EntityEdge.uuid = us := by
  intro us
  induction us with
  | nil => exact fun _ => ⟨[], rfl, rfl⟩
  | cons u us ih =>
    intro h
    obtain ⟨e, he, heu⟩ := h u (List.mem_cons_self u us)
    obtain ⟨es, hes, hmap⟩ := ih fun v hv => h v (List.mem_cons_of_mem _ hv)
    exact ⟨e :: es, by simp [lookupAll, he, hes], by simp [hmap, heu]⟩

lemma lookupAll_buildUuidMap_rrf (sr : List (List EntityEdge)) :
    ∃ es, lookupAll (buildUuidMap sr) (rrf (sr.map (List.map EntityEdge.uuid))) = some es ∧
      es.map EntityEdge.uuid = rrf (sr.map (List.map EntityEdge.uuid)) := by
  apply lookupAll_spec
  intro u hu
  apply lookupUuid_buildUuidMap
  rw [List.map_flatten]
  exact mem_rrf.1 hu

/-! Helper lemmas about the branches of the orchestrator. -/

lemma search_results_both (C : Collaborators) (q : String) {config : SearchConfig}
    (ht : config.text_search = "BM25") (hs : config.similarity_search = "cosine") :
    search_results C q config =
      [C.edge_fulltext_search q, C.edge_similarity_search (search_vector C q)] := by
  simp [search_results, ht, hs]

lemma search_results_textOnly (C : Collaborators) (q : String) {config : SearchConfig}
    (ht : config.text_search = "BM25") (hs : config.similarity_search ≠ "cosine") :
    search_results C q config = [C.edge_fulltext_search q] := by
  simp [search_results, ht, hs]

lemma search_results_simOnly (C : Collaborators) (q : String) {config : SearchConfig}
    (ht : config.text_search ≠ "BM25") (hs : config.similarity_search = "cosine") :
    search_results C q config = [C.edge_similarity_search (search_vector C q)] := by
  simp [search_results, ht, hs]

lemma search_results_none (C : Collaborators) (q : String) {config : SearchConfig}
    (ht : config.text_search ≠ "BM25") (hs : config.similarity_search ≠ "cosine") :
    search_results C q config = [] := by
  simp [search_results, ht, hs]

lemma edgesResult_single {C : Collaborators} {q : String} {config : SearchConfig}
    (h : (search_results C q config).length = 1) :
    edgesResult C q config = Except.ok ((search_results C q config).headD []) := by
  simp [edgesResult, h]

lemma edgesResult_error {C : Collaborators} {q : String} {config : SearchConfig}
    (hlen : 1 < (search_results C q config).length) (hr : config.reranker ≠ "rrf") :
    edgesResult C q config =
      Except.error (SearchError.exception "Multiple searches enabled without a reranker") := by
  have h1 : ¬(search_results C q config).length = 1 := by omega
  simp [edgesResult, h1, hlen, hr]

lemma edgesResult_rrf {C : Collaborators} {q : String} {config : SearchConfig}
    (h1 : (search_results C q config).length ≠ 1) (hr : config.reranker = "rrf") :
    ∃ es, edgesResult C q config = Except.ok es ∧
      lookupAll (buildUuidMap (search_results C q config))
        (rrf ((search_results C q config).map (List.map EntityEdge.uuid))) = some es ∧
      es.map EntityEdge.uuid =
        rrf ((search_results C q config).map (List.map EntityEdge.uuid)) := by
  obtain ⟨es, hes, hmap⟩ := lookupAll_buildUuidMap_rrf (search_results C q config)
  refine ⟨es, ?_, hes, hmap⟩
  have h2 : ¬(1 < (search_results C q config).length ∧ config.reranker ≠ "rrf") := by
    simp [hr]
  simp [edgesResult, h1, h2, hr, hes]

lemma edgesResult_isOk {C : Collaborators} {q : String} {config : SearchConfig}
    (h : ¬(1 < (search_results C q config).length ∧ config.reranker ≠ "rrf")) :
    ∃ es, edgesResult C q config = Except.ok es := by
  by_cases h1 : (search_results C q config).length = 1
  · exact ⟨_, edgesResult_single h1⟩
  · by_cases hr : config.reranker = "rrf"
    · obtain ⟨es, hes, -⟩ := edgesResult_rrf h1 hr
      exact ⟨es, hes⟩
    · have hlen : ¬1 < (search_results C q config).length := fun hl => h ⟨hl, hr⟩
      exact ⟨[], by simp [edgesResult, h1, hlen, hr]⟩

lemma hybrid_search_ok {C : Collaborators} {q : String} {t : Int} {config : SearchConfig}
    {es : List EntityEdge} (h : edgesResult C q config = Except.ok es) :
    (hybrid_search C q t config).1 =
      Except.ok
        { episodes := episodesOf C t config
          nodes := nodesOf C t config
          edges := es } := by
  simp [hybrid_search, h]

lemma hybrid_search_error {C : Collaborators} {q : String} {t : Int}
    {config : SearchConfig} {e : SearchError}
    (h : edgesResult C q config = Except.error e) :
    (hybrid_search C q t config).1 = Except.error e := by
  simp [hybrid_search, h]

lemma hybrid_search_snd (C : Collaborators) (q : String) (t : Int)
    (config : SearchConfig) :
    (hybrid_search C q t config).2 = searchTrace C q t config := rfl

/-! Concrete fixtures used by witnesses and counterexamples. -/

def edgeA : EntityEdge := { uuid := "a", fact := "factA" }

def edgeB : EntityEdge := { uuid := "b", fact := "factB" }

def edgeC : EntityEdge := { uuid := "c", fact := "factC" }

/-- Concrete collaborator oracles: two edges from full-text search, two from vector
search (overlapping on `edgeB`), a three-entry embedding, one episode, one node. -/
def Cex : Collaborators where
  retrieve_episodes := fun _ => [{ uuid := "ep1" }]
  get_mentioned_nodes := fun _ => [{ uuid := "n1" }]
  edge_fulltext_search := fun _ => [edgeA, edgeB]
  embedder_create := fun _ => [1, 2, 3]
  edge_similarity_search := fun _ => [edgeB, edgeC]

/-- Both strategies active, reranker disabled, episode window active. -/
def cfgBothNone : SearchConfig :=
  { num_episodes := 1, reranker := "none" }

/-- Both strategies active, RRF reranker, episode window disabled. -/
def cfgBothRrf : SearchConfig :=
  { num_episodes := 0 }

/-- Only full-text search active, episode window disabled. -/
def cfgTextOnly : SearchConfig :=
  { num_episodes := 0, similarity_search := "none" }

/-- Only vector search active, episode window disabled. -/
def cfgSimOnly : SearchConfig :=
  { num_episodes := 0, text_search := "none" }

/-- No strategy active, RRF reranker, episode window disabled. -/
def cfgNone : SearchConfig :=
  { num_episodes := 0, similarity_search := "none", text_search := "none" }

/-- Wrong-case strategy names: silently disables both strategies in the source. -/
def cfgWrongCase : SearchConfig :=
  { num_episodes := 0, similarity_search := "Cosine", text_search := "bm25" }

deriving instance DecidableEq for Except

/-! Claim theorems. -/

/-- C1, counterexample: with `text_search = BM25`, `similarity_search = cosine` and
`reranker = none`, the call does fail, but only after every collaborator has been
invoked: the trace of the execution lists episode retrieval, mention extraction,
full-text search, embedding generation and vector search, refuting the claim that no
collaborator is invoked on that execution. -/
theorem C1_config_error_counterexample :
    (hybrid_search Cex "q" 7 cfgBothNone).1 =
      Except.error (SearchError.exception "Multiple searches enabled without a reranker")
    ∧ (hybrid_search Cex "q" 7 cfgBothNone).2 =
      [SearchEvent.retrieveEpisodes 7,
        SearchEvent.getMentionedNodes [{ uuid := "ep1" }],
        SearchEvent.edgeFulltextSearch "q",
        SearchEvent.embedderCreate "q",
        SearchEvent.edgeSimilaritySearch [1, 2, 3]] := by
  exact ⟨by decide, by decide⟩

/-- C1, amended: a configuration activating both search strategies without the `rrf`
reranker fails with the error, but the check runs only after the fan-out: full-text
search, embedding generation and vector search are all invoked on that execution
(their events appear in the trace), not zero collaborator calls as claimed. -/
theorem C1_validation_after_fanout (C : Collaborators) (q : String) (t : Int)
    (cfg : SearchConfig) (ht : cfg.text_search = "BM25")
    (hs : cfg.similarity_search = "cosine") (hr : cfg.reranker ≠ "rrf") :
    (hybrid_search C q t cfg).1 =
      Except.error (SearchError.exception "Multiple searches enabled without a reranker")
    ∧ SearchEvent.edgeFulltextSearch q ∈ (hybrid_search C q t cfg).2
    ∧ SearchEvent.embedderCreate (normalizeQuery q) ∈ (hybrid_search C q t cfg).2
    ∧ SearchEvent.edgeSimilaritySearch (search_vector C q) ∈
        (hybrid_search C q t cfg).2 := by
  have hlen : 1 < (search_results C q cfg).length := by
    rw [search_results_both C q ht hs]; simp
  refine ⟨hybrid_search_error (edgesResult_error hlen hr), ?_, ?_, ?_⟩ <;>
    · rw [hybrid_search_snd]
      simp [searchTrace, ht, hs]

/-- C1, witness: the amended theorem at a concrete input. -/
theorem C1_validation_after_fanout_witness :
    (hybrid_search Cex "q" 7 cfgBothNone).1 =
      Except.error (SearchError.exception "Multiple searches enabled without a reranker")
    ∧ SearchEvent.edgeFulltextSearch "q" ∈ (hybrid_search Cex "q" 7 cfgBothNone).2
    ∧ SearchEvent.embedderCreate (normalizeQuery "q") ∈
        (hybrid_search Cex "q" 7 cfgBothNone).2
    ∧ SearchEvent.edgeSimilaritySearch (search_vector Cex "q") ∈
        (hybrid_search Cex "q" 7 cfgBothNone).2 :=
  C1_validation_after_fanout Cex "q" 7 cfgBothNone rfl rfl (by decide)

/-- C2, counterexample: the error raised for two strategies without a reranker carries
the message `Multiple searches enabled without a reranker`, not the claimed message
`multiple search strategies require a reranker`. -/
theorem C2_error_message_counterexample :
    (hybrid_search Cex "q" 0 cfgBothNone).1 =
      Except.error (SearchError.exception "Multiple searches enabled without a reranker")
    ∧ "Multiple searches enabled without a reranker" ≠
        "multiple search strategies require a reranker" := by
  exact ⟨by decide, by decide⟩

/-- C2, amended: when two or more strategies produced a result list and the reranker is
not `rrf`, the call raises a plain exception with message `Multiple searches enabled
without a reranker` (not a distinct `ConfigurationError` type nor the message the spec
quotes) and no result bundle is returned; conversely, with at most one strategy or with
the `rrf` reranker the call returns a bundle and raises nothing. -/
theorem C2_reranker_guard (C : Collaborators) (q : String) (t : Int)
    (cfg : SearchConfig) :
    (1 < (search_results C q cfg).length → cfg.reranker ≠ "rrf" →
      (hybrid_search C q t cfg).1 =
        Except.error (SearchError.exception "Multiple searches enabled without a reranker"))
    ∧ ((search_results C q cfg).length ≤ 1 ∨ cfg.reranker = "rrf" →
      ∃ r, (hybrid_search C q t cfg).1 = Except.ok r) := by
  constructor
  · intro hlen hr
    exact hybrid_search_error (edgesResult_error hlen hr)
  · intro h
    have h' : ¬(1 < (search_results C q cfg).length ∧ cfg.reranker ≠ "rrf") := by
      rcases h with h | h
      · exact fun hc => absurd hc.1 (by omega)
      · exact fun hc => hc.2 h
    obtain ⟨es, hes⟩ := edgesResult_isOk h'
    exact ⟨_, hybrid_search_ok hes⟩

/-- C2, witness: the amended theorem at concrete inputs, both directions. -/
theorem C2_reranker_guard_witness :
    (hybrid_search Cex "q" 7 cfgBothNone).1 =
      Except.error (SearchError.exception "Multiple searches enabled without a reranker")
    ∧ ∃ r, (hybrid_search Cex "q" 0 cfgBothRrf).1 = Except.ok r :=
  ⟨(C2_reranker_guard Cex "q" 7 cfgBothNone).1 (by decide) (by decide),
    (C2_reranker_guard Cex "q" 0 cfgBothRrf).2 (Or.inr rfl)⟩

/-- C3, confirmed: with exactly one active strategy the returned edges are that
strategy's raw result list, unchanged and in order, whatever the reranker is. -/
theorem C3_single_strategy_passthrough (C : Collaborators) (q : String) (t : Int)
    (cfg : SearchConfig) :
    (cfg.text_search = "BM25" → cfg.similarity_search ≠ "cosine" →
      (hybrid_search C q t cfg).1 = Except.ok
        { episodes := episodesOf C t cfg, nodes := nodesOf C t cfg,
          edges := C.edge_fulltext_search q })
    ∧ (cfg.text_search ≠ "BM25" → cfg.similarity_search = "cosine" →
      (hybrid_search C q t cfg).1 = Except.ok
        { episodes := episodesOf C t cfg, nodes := nodesOf C t cfg,
          edges := C.edge_similarity_search (search_vector C q) }) := by
  constructor
  · intro ht hs
    have hsr := search_results_textOnly C q ht hs
    have h1 : (search_results C q cfg).length = 1 := by rw [hsr]; rfl
    have h := edgesResult_single h1
    rw [hsr] at h
    exact hybrid_search_ok h
  · intro ht hs
    have hsr := search_results_simOnly C q ht hs
    have h1 : (search_results C q cfg).length = 1 := by rw [hsr]; rfl
    have h := edgesResult_single h1
    rw [hsr] at h
    exact hybrid_search_ok h

/-- C3, witness: the passthrough at concrete inputs, each strategy alone. -/
theorem C3_single_strategy_passthrough_witness :
    (hybrid_search Cex "q" 0 cfgTextOnly).1 = Except.ok
      { episodes := episodesOf Cex 0 cfgTextOnly, nodes := nodesOf Cex 0 cfgTextOnly,
        edges := Cex.edge_fulltext_search "q" }
    ∧ (hybrid_search Cex "q" 0 cfgSimOnly).1 = Except.ok
      { episodes := episodesOf Cex 0 cfgSimOnly, nodes := nodesOf Cex 0 cfgSimOnly,
        edges := Cex.edge_similarity_search (search_vector Cex "q") } :=
  ⟨(C3_single_strategy_passthrough Cex "q" 0 cfgTextOnly).1 rfl (by decide),
    (C3_single_strategy_passthrough Cex "q" 0 cfgSimOnly).2 (by decide) rfl⟩

/-- C4, confirmed: with both strategies active and the `rrf` reranker, the call
returns edges obtained by resolving every fused identifier through the
identifier-to-record map; their identifier list is exactly the fused ranking (same
order), has no duplicates, and its members are exactly the union of the identifiers of
the two per-strategy result lists. -/
theorem C4_rrf_union_fusion (C : Collaborators) (q : String) (t : Int)
    (cfg : SearchConfig) (ht : cfg.text_search = "BM25")
    (hs : cfg.similarity_search = "cosine") (hr : cfg.reranker = "rrf") :
    ∃ es, (hybrid_search C q t cfg).1 = Except.ok
        { episodes := episodesOf C t cfg, nodes := nodesOf C t cfg, edges := es }
      ∧ lookupAll (buildUuidMap (search_results C q cfg))
          (rrf ((search_results C q cfg).map (List.map EntityEdge.uuid))) = some es
      ∧ es.map EntityEdge.uuid =
          rrf ((search_results C q cfg).map (List.map EntityEdge.uuid))
      ∧ (es.map EntityEdge.uuid).Nodup
      ∧ ∀ u, u ∈ es.map EntityEdge.uuid ↔
          (u ∈ (C.edge_fulltext_search q).map EntityEdge.uuid ∨
            u ∈ (C.edge_similarity_search (search_vector C q)).map EntityEdge.uuid) := by
  have hsr := search_results_both C q ht hs
  have h1 : (search_results C q cfg).length ≠ 1 := by rw [hsr]; simp
  obtain ⟨es, hok, hlk, hmap⟩ := edgesResult_rrf h1 hr
  refine ⟨es, hybrid_search_ok hok, hlk, hmap, ?_, ?_⟩
  · rw [hmap]
    exact rrf_nodup _
  · intro u
    rw [hmap, mem_rrf, hsr]
    simp

/-- C4, witness: the fusion theorem at a concrete input. -/
theorem C4_rrf_union_fusion_witness :
    ∃ es, (hybrid_search Cex "q" 0 cfgBothRrf).1 = Except.ok
        { episodes := episodesOf Cex 0 cfgBothRrf, nodes := nodesOf Cex 0 cfgBothRrf,
          edges := es }
      ∧ lookupAll (buildUuidMap (search_results Cex "q" cfgBothRrf))
          (rrf ((search_results Cex "q" cfgBothRrf).map (List.map EntityEdge.uuid))) =
            some es
      ∧ es.map EntityEdge.uuid =
          rrf ((search_results Cex "q" cfgBothRrf).map (List.map EntityEdge.uuid))
      ∧ (es.map EntityEdge.uuid).Nodup
      ∧ ∀ u, u ∈ es.map EntityEdge.uuid ↔
          (u ∈ (Cex.edge_fulltext_search "q").map EntityEdge.uuid ∨
            u ∈ (Cex.edge_similarity_search (search_vector Cex "q")).map
              EntityEdge.uuid) :=
  C4_rrf_union_fusion Cex "q" 0 cfgBothRrf rfl rfl rfl

/-- C5, counterexample: the embedder output `[1, 2, 3]` is shorter than the expected
dimension, yet the call succeeds and the short vector is handed to vector edge search
unchanged, refuting the claim that a shorter vector causes the call to fail. -/
theorem C5_short_vector_counterexample :
    (Cex.embedder_create (normalizeQuery "q")).length < EMBEDDING_DIM
    ∧ SearchEvent.edgeSimilaritySearch [1, 2, 3] ∈ (hybrid_search Cex "q" 0 cfgSimOnly).2
    ∧ (hybrid_search Cex "q" 0 cfgSimOnly).1 =
        Except.ok { episodes := [], nodes := [], edges := [edgeB, edgeC] } := by
  exact ⟨by decide, by decide, by decide⟩

/-- C5, amended: the vector handed to vector edge search is the embedder output sliced
to the first `EMBEDDING_DIM` entries: a longer vector is truncated to exactly
`EMBEDDING_DIM`, and a shorter vector is passed through unchanged with no error (no
validation is performed). -/
theorem C5_embedding_truncation (C : Collaborators) (q : String) (t : Int)
    (cfg : SearchConfig) (hs : cfg.similarity_search = "cosine") :
    SearchEvent.edgeSimilaritySearch
        ((C.embedder_create (normalizeQuery q)).take EMBEDDING_DIM) ∈
      (hybrid_search C q t cfg).2
    ∧ (EMBEDDING_DIM ≤ (C.embedder_create (normalizeQuery q)).length →
      ((C.embedder_create (normalizeQuery q)).take EMBEDDING_DIM).length =
        EMBEDDING_DIM)
    ∧ ((C.embedder_create (normalizeQuery q)).length < EMBEDDING_DIM →
      (C.embedder_create (normalizeQuery q)).take EMBEDDING_DIM =
        C.embedder_create (normalizeQuery q)) := by
  refine ⟨?_, ?_, ?_⟩
  · rw [hybrid_search_snd]
    simp [searchTrace, hs, search_vector]
  · intro h
    rw [List.length_take]
    omega
  · intro h
    exact List.take_of_length_le (Nat.le_of_lt h)

/-- C5, witness: the amended theorem at a concrete input with a short embedder
output. -/
theorem C5_embedding_truncation_witness :
    SearchEvent.edgeSimilaritySearch
        ((Cex.embedder_create (normalizeQuery "q")).take EMBEDDING_DIM) ∈
      (hybrid_search Cex "q" 0 cfgSimOnly).2
    ∧ (Cex.embedder_create (normalizeQuery "q")).take EMBEDDING_DIM =
        Cex.embedder_create (normalizeQuery "q") :=
  ⟨(C5_embedding_truncation Cex "q" 0 cfgSimOnly rfl).1,
    (C5_embedding_truncation Cex "q" 0 cfgSimOnly rfl).2.2 (by decide)⟩

/-- C6, confirmed: with `num_episodes = 0` neither episode retrieval nor mention
extraction is invoked (no episodic event appears in the trace), and any returned
bundle has empty episodes and nodes, regardless of every other setting. -/
theorem C6_disabled_episode_window (C : Collaborators) (q : String) (t : Int)
    (cfg : SearchConfig) (h : cfg.num_episodes = 0) :
    (∀ ev ∈ (hybrid_search C q t cfg).2, ev.isEpisodic = false)
    ∧ ∀ r, (hybrid_search C q t cfg).1 = Except.ok r →
        r.episodes = [] ∧ r.nodes = [] := by
  have h0 : ¬0 < cfg.num_episodes := by omega
  constructor
  · intro ev hev
    rw [hybrid_search_snd] at hev
    simp only [searchTrace, if_neg h0, List.nil_append, List.mem_append] at hev
    by_cases ht : cfg.text_search = "BM25" <;>
        by_cases hsim : cfg.similarity_search = "cosine" <;>
        simp only [ht, hsim, if_true, if_false, List.mem_singleton, List.mem_cons,
          List.not_mem_nil, or_false, false_or, if_pos, if_neg, not_false_iff] at hev
    · rcases hev with rfl | rfl | rfl <;> rfl
    · subst hev; rfl
    · rcases hev with rfl | rfl <;> rfl
  · intro r hrok
    cases hE : edgesResult C q cfg with
    | error e =>
      rw [hybrid_search_error hE] at hrok
      exact absurd hrok (by simp)
    | ok es =>
      rw [hybrid_search_ok hE] at hrok
      obtain rfl := Except.ok.inj hrok
      constructor <;> simp [episodesOf, nodesOf, if_neg h0]

/-- C6, witness: the theorem at a concrete input with the episode window disabled. -/
theorem C6_disabled_episode_window_witness :
    (∀ ev ∈ (hybrid_search Cex "q" 0 cfgTextOnly).2, ev.isEpisodic = false)
    ∧ ∀ r, (hybrid_search Cex "q" 0 cfgTextOnly).1 = Except.ok r →
        r.episodes = [] ∧ r.nodes = [] :=
  C6_disabled_episode_window Cex "q" 0 cfgTextOnly rfl

/-- C7, confirmed: when neither strategy is active the call returns a bundle whose
edges are the empty list, for every reranker value (including `rrf`, whose fusion of
zero lists is empty). -/
theorem C7_zero_strategies_empty_edges (C : Collaborators) (q : String) (t : Int)
    (cfg : SearchConfig) (ht : cfg.text_search ≠ "BM25")
    (hs : cfg.similarity_search ≠ "cosine") :
    (hybrid_search C q t cfg).1 = Except.ok
      { episodes := episodesOf C t cfg, nodes := nodesOf C t cfg, edges := [] } := by
  have hsr := search_results_none C q ht hs
  by_cases hr : cfg.reranker = "rrf"
  · have h1 : (search_results C q cfg).length ≠ 1 := by rw [hsr]; simp
    obtain ⟨es, hok, hlk, -⟩ := edgesResult_rrf h1 hr
    rw [hsr] at hlk
    simp only [List.map_nil, rrf_nil, lookupAll, Option.some.injEq] at hlk
    rw [← hlk] at hok
    exact hybrid_search_ok hok
  · have h1 : ¬(search_results C q cfg).length = 1 := by rw [hsr]; simp
    have hlen : ¬1 < (search_results C q cfg).length := by rw [hsr]; simp
    have hE : edgesResult C q cfg = Except.ok [] := by
      simp [edgesResult, h1, hlen, hr]
    exact hybrid_search_ok hE

/-- C7, witness: the theorem at a concrete input with both strategies disabled and the
default `rrf` reranker. -/
theorem C7_zero_strategies_empty_edges_witness :
    (hybrid_search Cex "q" 0 cfgNone).1 = Except.ok
      { episodes := episodesOf Cex 0 cfgNone, nodes := nodesOf Cex 0 cfgNone,
        edges := [] } :=
  C7_zero_strategies_empty_edges Cex "q" 0 cfgNone (by decide) (by decide)

/-- C8, confirmed: whenever embedding generation runs, the text sent to the Embedding
Generator is the query with every newline character replaced by a single space, and a
query with no newline characters is sent unchanged. -/
theorem C8_query_normalization (C : Collaborators) (q : String) (t : Int)
    (cfg : SearchConfig) (hs : cfg.similarity_search = "cosine") :
    SearchEvent.embedderCreate (normalizeQuery q) ∈ (hybrid_search C q t cfg).2
    ∧ ((∀ c ∈ q.data, c ≠ '\n') → normalizeQuery q = q) := by
  constructor
  · rw [hybrid_search_snd]
    simp [searchTrace, hs]
  · intro h
    obtain ⟨l⟩ := q
    unfold normalizeQuery
    congr 1
    exact (List.map_congr_left fun c hc => if_neg (h c hc)).trans (List.map_id l)

/-- C8, witness: the theorem at a concrete query containing a newline; the normalized
text sent to the embedder appears in the trace. -/
theorem C8_query_normalization_witness :
    SearchEvent.embedderCreate (normalizeQuery "a\nb") ∈
      (hybrid_search Cex "a\nb" 0 cfgSimOnly).2
    ∧ normalizeQuery "xy" = "xy" :=
  ⟨(C8_query_normalization Cex "a\nb" 0 cfgSimOnly rfl).1,
    (C8_query_normalization Cex "xy" 0 cfgSimOnly rfl).2 (by decide)⟩

/-- C9, counterexample: with both strategies active, every execution issues the calls
strictly in sequence: the full-text search call is issued and completed before
embedding generation is issued, refuting the claim that full-text search and the
embedding-then-vector chain execute concurrently (neither waiting for the other); at
this concrete input the trace is exactly full-text search, then embedding generation,
then vector search. -/
theorem C9_sequential_trace_counterexample :
    (hybrid_search Cex "q" 0 cfgBothRrf).2 =
      [SearchEvent.edgeFulltextSearch "q", SearchEvent.embedderCreate "q",
        SearchEvent.edgeSimilaritySearch [1, 2, 3]] := by
  decide

/-- C9, amended: the collaborator calls are issued sequentially, each awaited before
the next: with both strategies active the trace is the episode segment followed by
exactly full-text search, then embedding generation, then vector search. Full-text
search completes before the embedding chain begins (they are not concurrent); the
claim's second half — embedding generation completes strictly before vector edge
search begins — does hold. -/
theorem C9_sequential_order (C : Collaborators) (q : String) (t : Int)
    (cfg : SearchConfig) (ht : cfg.text_search = "BM25")
    (hs : cfg.similarity_search = "cosine") :
    (hybrid_search C q t cfg).2 =
      (if 0 < cfg.num_episodes then
        [SearchEvent.retrieveEpisodes t,
          SearchEvent.getMentionedNodes (C.retrieve_episodes t)]
      else []) ++
        [SearchEvent.edgeFulltextSearch q,
          SearchEvent.embedderCreate (normalizeQuery q),
          SearchEvent.edgeSimilaritySearch (search_vector C q)] := by
  rw [hybrid_search_snd]
  simp [searchTrace, ht, hs]

/-- C9, witness: the amended sequential order at a concrete input. -/
theorem C9_sequential_order_witness :
    (hybrid_search Cex "q" 7 cfgBothNone).2 =
      (if 0 < cfgBothNone.num_episodes then
        [SearchEvent.retrieveEpisodes 7,
          SearchEvent.getMentionedNodes (Cex.retrieve_episodes 7)]
      else []) ++
        [SearchEvent.edgeFulltextSearch "q",
          SearchEvent.embedderCreate (normalizeQuery "q"),
          SearchEvent.edgeSimilaritySearch (search_vector Cex "q")] :=
  C9_sequential_order Cex "q" 7 cfgBothNone rfl rfl

/-- C10, confirmed: strategy activation is an exact, case-sensitive string comparison:
the full-text collaborator is invoked exactly when `text_search = "BM25"`, the vector
collaborator exactly when `similarity_search = "cosine"`, and any other values (for
example `bm25` or `Cosine`) silently disable the strategies and the call still
succeeds with no error. -/
theorem C10_exact_string_gating (C : Collaborators) (q : String) (t : Int)
    (cfg : SearchConfig) :
    (SearchEvent.edgeFulltextSearch q ∈ (hybrid_search C q t cfg).2 ↔
      cfg.text_search = "BM25")
    ∧ ((∃ v, SearchEvent.edgeSimilaritySearch v ∈ (hybrid_search C q t cfg).2) ↔
      cfg.similarity_search = "cosine")
    ∧ (cfg.text_search ≠ "BM25" → cfg.similarity_search ≠ "cosine" →
      ∃ r, (hybrid_search C q t cfg).1 = Except.ok r) := by
  refine ⟨?_, ?_, ?_⟩
  · rw [hybrid_search_snd]
    by_cases ht : cfg.text_search = "BM25" <;>
      by_cases hsim : cfg.similarity_search = "cosine" <;>
      by_cases hn : 0 < cfg.num_episodes <;>
      simp [searchTrace, ht, hsim, hn]
  · rw [hybrid_search_snd]
    by_cases ht : cfg.text_search = "BM25" <;>
      by_cases hsim : cfg.similarity_search = "cosine" <;>
      by_cases hn : 0 < cfg.num_episodes <;>
      simp [searchTrace, ht, hsim, hn]
  · intro ht hsim
    have h' : ¬(1 < (search_results C q cfg).length ∧ cfg.reranker ≠ "rrf") := by
      rw [search_results_none C q ht hsim]
      simp
    obtain ⟨es, hes⟩ := edgesResult_isOk h'
    exact ⟨_, hybrid_search_ok hes⟩

/-- C10, witness: at lower-case `bm25` and capitalized `Cosine` no strategy event is
issued and the call succeeds. -/
theorem C10_exact_string_gating_witness :
    (SearchEvent.edgeFulltextSearch "q" ∈ (hybrid_search Cex "q" 0 cfgWrongCase).2 ↔
      cfgWrongCase.text_search = "BM25")
    ∧ ∃ r, (hybrid_search Cex "q" 0 cfgWrongCase).1 = Except.ok r :=
  ⟨(C10_exact_string_gating Cex "q" 0 cfgWrongCase).1,
    (C10_exact_string_gating Cex "q" 0 cfgWrongCase).2.2 (by decide) (by decide)⟩
